import Mathlib

/-!
# Verification of `rq` (a terminal UI wrapper around `jq`)

Shallow embedding of the parts of the `rq` codebase that the specification
talks about, together with theorems settling the spec's claims.

Conventions of the embedding:
* Rust `u16` values are modelled as `ℕ` with explicit saturation at
  `U16_MAX = 65535` wherever the Rust code saturates (`saturating_add`,
  `saturating_sub`, ratatui's `Rect::right`/`Rect::bottom`).
* Rust `usize` values are modelled as `ℕ`; `usize::saturating_add 1` is
  modelled with saturation at `USIZE_MAX` for faithfulness (`Any::indices`).
* Rust `f32` arithmetic in `Any::interpolate` is modelled over `ℚ`;
  at every concrete input used in a theorem below the `f32` computation is
  exact, so the `ℚ` model agrees with the code there.
* A Rust `&str` is modelled at the byte level: a text is a list of grapheme
  clusters, a cluster is a list of chars, and a char is a (nonempty) list of
  bytes.  Byte slicing `&text[a..=b]` panics in Rust when an end of the range
  is not a char boundary; the model returns `Option` with `none` for a panic.
* Fallible Rust functions returning `Result` are modelled with `Except`.
-/

/-- `u16::MAX`. -/
def U16_MAX : ℕ := 65535

/-- `usize::MAX` (64-bit target). -/
def USIZE_MAX : ℕ := 18446744073709551615

/-- `u16::saturating_add`. -/
def satAdd16 (a b : ℕ) : ℕ := min (a + b) U16_MAX

/-- `usize::saturating_add 1` (from `Any::indices`). -/
def satSuccUsize (a : ℕ) : ℕ := min (a + 1) USIZE_MAX

/-!
## Text model (`src/any.rs`: `Any::substring`, `Any::indices`,
`Any::first_and_last`)

A char is a list of bytes (its UTF-8 encoding), a grapheme cluster is a list
of chars, a text is a list of clusters.  `unicode_segmentation`'s
`grapheme_indices` is modelled by pairing each cluster with its starting byte
offset.
-/

/-- A char: its UTF-8 bytes. -/
def UChar : Type := List ℕ

/-- A grapheme cluster: a list of chars. -/
def Cluster : Type := List UChar

/-- A text: its segmentation into grapheme clusters. -/
def TextM : Type := List Cluster

/-- The bytes of one grapheme cluster. -/
def clusterBytes (c : Cluster) : List ℕ := c.flatten

/-- The bytes of a text (what `str::as_bytes` returns). -/
def textBytes (t : TextM) : List ℕ := (t.map clusterBytes).flatten

/-- The UTF-8 byte lengths of the chars of a text, in order. -/
def charLens (t : TextM) : List ℕ := t.flatten.map List.length

/-- The char boundaries of a text: `0` together with every running sum of the
char byte lengths.  Rust slices a `&str` only at these byte offsets; slicing
anywhere else panics. -/
def charBoundaries (t : TextM) : List ℕ := (charLens t).scanl (· + ·) 0

/-- `i` is a char boundary of `t` (decidable). -/
def isCharBoundary (t : TextM) (i : ℕ) : Bool := i ∈ charBoundaries t

/-- `unicode_segmentation::grapheme_indices`, starting at byte offset
`off`: each cluster paired with its starting byte offset. -/
def gIdxFrom (off : ℕ) : List Cluster → List (ℕ × Cluster)
  | [] => []
  | c :: cs => (off, c) :: gIdxFrom (off + (clusterBytes c).length) cs

/-- `text.grapheme_indices(true)`. -/
def graphemeIndicesM (t : TextM) : List (ℕ × Cluster) := gIdxFrom 0 t

/-- `Any::first_and_last` on an iterator (here: the list of remaining
items): `first = next()?`, then pair it with `last()` when the rest is
nonempty, else with itself. -/
def firstAndLast {α : Type} : List α → Option (α × α)
  | [] => none
  | x :: xs =>
    match xs.getLast? with
    | some l => some (x, l)
    | none => some (x, x)

/-- A Rust `Bound<usize>` (one end of a `RangeBounds<usize>`). -/
inductive RBound where
  | incl (n : ℕ)
  | excl (n : ℕ)
  | unb
deriving DecidableEq

/-- A Rust `RangeBounds<usize>` value. -/
structure RRange where
  lo : RBound
  hi : RBound
deriving DecidableEq

/-- `Any::indices`: resolve the two bounds to a begin/end pair; an unbounded
end resolves to `text.len()` — the BYTE length of the text. -/
def rIndices (r : RRange) (textByteLen : ℕ) : ℕ × ℕ :=
  let begin_ :=
    match r.lo with
    | .incl i => i
    | .excl i => satSuccUsize i
    | .unb => 0
  let end_ :=
    match r.hi with
    | .incl i => satSuccUsize i
    | .excl i => i
    | .unb => textByteLen
  (begin_, end_)

/-- Rust `&text[a..=b]` (byte slicing with an inclusive end): returns the
bytes `a..b+1` when both `a` and `b+1` are char boundaries (with
`a ≤ b + 1 ≤ len`), and `none` (a Rust panic) otherwise. -/
def strSliceIncl (t : TextM) (a b : ℕ) : Option (List ℕ) :=
  let bytes := textBytes t
  if a ≤ b + 1 ∧ b + 1 ≤ bytes.length ∧ isCharBoundary t a ∧ isCharBoundary t (b + 1) then
    some ((bytes.drop a).take (b + 1 - a))
  else
    none

/-- `Any::substring`: resolve the range with `Any::indices`, walk the
grapheme iterator with `skip(begin).take(end - begin)`, and slice the text
from the first selected cluster's starting byte to the last selected
cluster's starting byte, inclusive (`&text[begin_idx..=last_idx]`); the empty
selection returns `""`.  `none` models the Rust panic of the byte slice. -/
def substringM (t : TextM) (r : RRange) : Option (List ℕ) :=
  let bytes := textBytes t
  let p := rIndices r bytes.length
  let len := p.2 - p.1
  let gis := ((graphemeIndicesM t).drop p.1).take len
  match firstAndLast gis with
  | some (b, l) => strSliceIncl t b.1 l.1
  | none => some []

/-- The number of grapheme clusters of a text (`Any::len_graphemes`). -/
def graphemeCount (t : TextM) : ℕ := t.length

/-- The text `"aé"`: cluster `"a"` (one 1-byte char) followed by cluster
`"é"` (one 2-byte char, UTF-8 `0xC3 0xA9`). -/
def textAEacute : TextM := [[[97]], [[195, 169]]]

/-- The text `"e\u{301}"` (`"e"` followed by COMBINING ACUTE ACCENT): a
single grapheme cluster made of two chars, a 1-byte one and a 2-byte one
(UTF-8 `0xCC 0x81`). -/
def textECombining : TextM := [[[101], [204, 129]]]

/-- The ASCII text `"ab"`. -/
def textAB : TextM := [[[97]], [[98]]]

/-- The half-open column range `[a, b)` as a Rust range value `a..b`. -/
def rangeCo (a b : ℕ) : RRange := ⟨.incl a, .excl b⟩

/-!
## Scroll state (`src/scroll_state.rs`) and the saturating helpers
(`src/any.rs`: `Any::saturating_add_in_place_with_max`,
`Any::saturating_sub_in_place_with_max`)
-/

/-- `ratatui::layout::Position` (two `u16` fields). -/
structure PosM where
  x : ℕ
  y : ℕ
deriving DecidableEq

/-- `ratatui::layout::Size` (two `u16` fields). -/
structure SizeM where
  width : ℕ
  height : ℕ
deriving DecidableEq

/-- `ratatui::layout::Rect` (four `u16` fields). -/
structure RectM where
  x : ℕ
  y : ℕ
  width : ℕ
  height : ℕ
deriving DecidableEq

/-- `Rect::right` (`x.saturating_add(width)`). -/
def rectRight (r : RectM) : ℕ := satAdd16 r.x r.width

/-- `Rect::bottom` (`y.saturating_add(height)`). -/
def rectBottom (r : RectM) : ℕ := satAdd16 r.y r.height

/-- `Any::saturating_add_in_place_with_max` at `u16`:
`self = self.saturating_add(rhs).min(max_value)`. -/
def satAddWithMax (self rhs maxValue : ℕ) : ℕ := min (satAdd16 self rhs) maxValue

/-- `Any::saturating_sub_in_place_with_max` at `u16`:
`self = self.saturating_sub(rhs).min(max_value)` (`ℕ` subtraction is
saturating subtraction). -/
def satSubWithMax (self rhs maxValue : ℕ) : ℕ := min (self - rhs) maxValue

/-- `ScrollState` (offset, content size, page size). -/
structure ScrollState where
  offset : PosM
  contentSize : SizeM
  pageSize : SizeM
deriving DecidableEq

/-- `ScrollState::max_offset_y`. -/
def ScrollState.maxOffsetY (s : ScrollState) : ℕ :=
  s.contentSize.height - s.pageSize.height

/-- `ScrollState::max_offset_x`. -/
def ScrollState.maxOffsetX (s : ScrollState) : ℕ :=
  s.contentSize.width - s.pageSize.width

/-- `ScrollState::scroll_up`. -/
def ScrollState.scrollUp (s : ScrollState) (count : ℕ) : ScrollState :=
  { s with offset := { s.offset with y := satSubWithMax s.offset.y count s.maxOffsetY } }

/-- `ScrollState::scroll_down`. -/
def ScrollState.scrollDown (s : ScrollState) (count : ℕ) : ScrollState :=
  { s with offset := { s.offset with y := satAddWithMax s.offset.y count s.maxOffsetY } }

/-- `ScrollState::scroll_left`. -/
def ScrollState.scrollLeft (s : ScrollState) (count : ℕ) : ScrollState :=
  { s with offset := { s.offset with x := satSubWithMax s.offset.x count s.maxOffsetX } }

/-- `ScrollState::scroll_right`. -/
def ScrollState.scrollRight (s : ScrollState) (count : ℕ) : ScrollState :=
  { s with offset := { s.offset with x := satAddWithMax s.offset.x count s.maxOffsetX } }

/-!
## `ScrollView` (`src/scroll.rs`) and `JqOutput` (`src/jq_process.rs`)

`ScrollView::push_line` appends the line and CRLF to `content` and records
the line's `(start, len)` range.  Rust measures `line_ranges` in bytes and
`content_width` in grapheme clusters; the model measures both in Lean chars
(exact for ASCII content; no claim below depends on these counts).
-/

/-- `ScrollView` (`src/scroll.rs`). -/
structure ScrollView where
  content : String
  lineRanges : List (ℕ × ℕ)
  offset : PosM
  pageSize : SizeM
  contentWidth : ℕ
deriving DecidableEq

/-- `ScrollView::new`. -/
def ScrollView.new : ScrollView :=
  { content := "", lineRanges := [], offset := ⟨0, 0⟩, pageSize := ⟨0, 0⟩, contentWidth := 0 }

/-- `ScrollView::set_offset`. -/
def ScrollView.setOffset (sv : ScrollView) (offset : PosM) : ScrollView :=
  { sv with offset := offset }

/-- `ScrollView::push_line`. -/
def ScrollView.pushLine (sv : ScrollView) (line : String) : ScrollView :=
  { sv with
    contentWidth := max sv.contentWidth line.length
    lineRanges := sv.lineRanges ++ [(sv.content.length, line.length)]
    content := sv.content ++ line ++ "\r\n" }

/-- `content.lines().collect::<ScrollView>()` (fold `push_line` over the
lines; `str::lines` splits on `\n`). -/
def ScrollView.fromContent (content : String) : ScrollView :=
  (content.splitOn "\n").foldl ScrollView.pushLine ScrollView.new

/-- `JqOutput`: a monotonically increasing timestamp (`Instant`, modelled as
`ℕ`) plus the scroll view built from the jq output content. -/
structure JqOutput where
  instant : ℕ
  scrollView : ScrollView
deriving DecidableEq

/-- `JqOutput::new`. -/
def JqOutput.new (instant : ℕ) (content : String) : JqOutput :=
  { instant := instant, scrollView := ScrollView.fromContent content }

/-- `JqOutput::with_scroll_view_offset`: copy the other output's scroll
offset into this output. -/
def JqOutput.withScrollViewOffset (self other : JqOutput) : JqOutput :=
  { self with scrollView := self.scrollView.setOffset other.scrollView.offset }

/-- `App::update_jq_output` merge rule (`src/app.rs`): replace the current
output only when the incoming one has a strictly newer timestamp. -/
def updateJqOutput (current incoming : JqOutput) : JqOutput :=
  if current.instant < incoming.instant then incoming else current

/-- Applying a whole stream of received outputs in arrival order. -/
def applyAll (current : JqOutput) (incoming : List JqOutput) : JqOutput :=
  incoming.foldl updateJqOutput current

/-!
## The jq process (`src/jq_process.rs`)

`JqProcessBuilder::build` tokenizes the flags with `shlex::split` (an
external crate, modelled by its result: `none` when tokenization fails) and
appends the query — or the identity query `"."` when the query string is
empty — as the final positional argument.

`JqProcess::run_helper` spawns the child, writes the input, waits for the
exit status, and only on success, with UTF-8 decodable stdout, sends a
`JqOutput` on the channel.  The environment interactions are modelled by an
`Outcome` record of what the operating system and the child produced;
`runHelperM` returns the `Result` together with the list of outputs sent on
the channel.
-/

/-- The name of the jq executable. -/
def JQ_EXECUTABLE_NAME : String := "jq"

/-- `JqProcessBuilder::DEFAULT_QUERY`. -/
def DEFAULT_QUERY : String := "."

/-- The command built by `JqProcessBuilder::build`: the executable and its
argument list. -/
structure CommandM where
  program : String
  args : List String
deriving DecidableEq

/-- `JqProcessBuilder::build`: `flagsTokens` is the result of
`shlex::split(self.flags)`; `none` aborts the build with an error, otherwise
the command is `jq <flags...> <query>` with the empty query replaced by
`DEFAULT_QUERY`. -/
def buildM (flagsTokens : Option (List String)) (query : String) : Except String CommandM :=
  match flagsTokens with
  | none => .error "unable to split flags for the shell"
  | some args =>
    .ok { program := JQ_EXECUTABLE_NAME
          args := args ++ [if query = "" then DEFAULT_QUERY else query] }

/-- What the environment did when `run_helper` ran the child process:
whether the spawn succeeded (a missing binary makes it fail), whether the
exit status was a success, and the UTF-8 decodings of stdout and stderr
(`none` = not valid UTF-8). -/
structure Outcome where
  spawnOk : Bool
  statusSuccess : Bool
  stdoutUtf8 : Option String
  stderrUtf8 : Option String
  instant : ℕ
deriving DecidableEq

/-- `JqProcess::run_helper`: the returned `Result` paired with the list of
`JqOutput` messages sent on the channel.  Every early `?`/`ensure!` return
happens before the `send`, so an error leaves the list empty. -/
def runHelperM (o : Outcome) : Except String Unit × List JqOutput :=
  if o.spawnOk = false then (.error "spawn failed", [])
  else if o.statusSuccess = false then
    match o.stderrUtf8 with
    | some msg => (.error msg, [])
    | none => (.error "stderr was not valid utf-8", [])
  else
    match o.stdoutUtf8 with
    | some content => (.ok (), [JqOutput.new o.instant content])
    | none => (.error "stdout was not valid utf-8", [])

/-- `JqProcess::run`: `run_helper` with the error logged and swallowed
(`Any::log_if_error`); only the channel effect remains. -/
def runM (o : Outcome) : List JqOutput := (runHelperM o).2

/-!
## Key events (`src/app.rs`: `App::handle_event`, `App::handle_key_event`)

`handle_event` returns `Ok(Some(output))` to exit the program successfully
with `output`, `Ok(None)` to keep running, and `Err(error)` to exit the
program unsuccessfully.  The model keeps the state `handle_key_event` reads
for its return value — the reconciled output value — as a parameter; the
query editing and process spawning side effects do not influence the
returned value.
-/

/-- `crossterm::event::KeyCode` (the cases the app distinguishes). -/
inductive KeyCodeM where
  | char (c : Char)
  | enter
  | tab
  | other
deriving DecidableEq

/-- `crossterm::event::KeyModifiers` as matched by the app: the `CONTROL`
value, or anything else. -/
inductive ModifiersM where
  | control
  | noControl
deriving DecidableEq

/-- A key event. -/
structure KeyEventM where
  code : KeyCodeM
  modifiers : ModifiersM
deriving DecidableEq

/-- `crossterm::event::Event` (the cases the app distinguishes). -/
inductive EventM where
  | key (k : KeyEventM)
  | mouse
  | other
deriving DecidableEq

/-- `App::handle_key_event`, as far as its return value goes: `Enter`
returns `Ok(Some(self.jq_output.take_value()))` (the reconciled output
value), every other key returns `Ok(None)`. -/
def handleKeyEventM (k : KeyEventM) (currentOutputValue : String) : Except String (Option String) :=
  if k.code = KeyCodeM.enter then .ok (some currentOutputValue) else .ok none

/-- `App::handle_event`: `Ctrl+q` returns `Ok(Some(String::new()))`, other
key events go to `handle_key_event`, mouse and all remaining events return
`Ok(None)`. -/
def handleEventM (e : EventM) (currentOutputValue : String) : Except String (Option String) :=
  match e with
  | .key k =>
    if k.code = KeyCodeM.char 'q' ∧ k.modifiers = ModifiersM.control then
      .ok (some "")
    else
      handleKeyEventM k currentOutputValue
  | .mouse => .ok none
  | .other => .ok none

/-!
## Scrollbar geometry (`src/scroll_state.rs`: `ScrollState::vertical_scroll_bar`,
`ScrollState::render_scroll_bars`; `src/any.rs`: `Any::cast`,
`Any::interpolate`)

`Any::interpolate` works in `f32`; the model works in `ℚ`.  At every
concrete input appearing in a theorem below the `f32` computation is exact
(all intermediate values are representable), so the models agree there.
`f32::round` rounds half away from zero; all values reaching `round` here
are nonnegative, where that agrees with Mathlib's `round` (round half up).
-/

/-- `f32::clamp`. -/
def clampQ (x lo hi : ℚ) : ℚ := min (max x lo) hi

/-- `Any::cast::<u16>` applied to a nonnegative-rounded `f32` integer value:
out-of-range values fall back to `u16::MAX` (`NumCast` returns `None`,
`cast` substitutes `T::max_value()`). -/
def castU16 (z : ℤ) : ℕ := if z < 0 ∨ (U16_MAX : ℤ) < z then U16_MAX else z.toNat

/-- `Any::interpolate`: clamp the input into `[oldMin, oldMax]`, map it
linearly into `[newMin, newMax]`, clamp, and round.  The result is the
rounded integer; callers cast it to `u16` or keep it in `f32`. -/
def interpolateQ (v : ℕ) (oldMin oldMax newMin newMax : ℚ) : ℤ :=
  let oldValue := clampQ (v : ℚ) oldMin oldMax
  let newValue := newMin + (newMax - newMin) * (oldValue - oldMin) / (oldMax - oldMin)
  round (clampQ newValue newMin newMax)

/-- A scroll bar: the bar track and the thumb, both rectangles. -/
structure ScrollBarM where
  bar : RectM
  thumb : RectM
deriving DecidableEq

/-- `ScrollState::vertical_scroll_bar`: the thumb height interpolates the
page height over `[0, content_height] → [0, page_height]` (then `.max(1.0)`),
the thumb y interpolates the offset over
`[0, content_height] → [rect.y, rect.bottom()]`, and the bar occupies the
rightmost column of the rect. -/
def verticalScrollBarM (rect : RectM) (offset : PosM) (contentSize : SizeM) : ScrollBarM :=
  let scrollThumbHeight : ℤ :=
    max (interpolateQ rect.height 0 (contentSize.height : ℚ) 0 (rect.height : ℚ)) 1
  let scrollThumbY : ℕ :=
    castU16 (interpolateQ offset.y 0 (contentSize.height : ℚ) (rect.y : ℚ) ((rectBottom rect) : ℚ))
  let scrollBarX : ℕ := rectRight rect - 1
  { bar := ⟨scrollBarX, rect.y, 1, rect.height⟩
    thumb := ⟨scrollBarX, scrollThumbY, 1, castU16 scrollThumbHeight⟩ }

/-- `Transpose` for `RectM`. -/
def RectM.transpose (r : RectM) : RectM := ⟨r.y, r.x, r.height, r.width⟩

/-- `Transpose` for `PosM`. -/
def PosM.transpose (p : PosM) : PosM := ⟨p.y, p.x⟩

/-- `Transpose` for `SizeM`. -/
def SizeM.transpose (s : SizeM) : SizeM := ⟨s.height, s.width⟩

/-- `Transpose` for `ScrollBarM`. -/
def ScrollBarM.transpose (sb : ScrollBarM) : ScrollBarM :=
  ⟨sb.bar.transpose, sb.thumb.transpose⟩

/-- `ScrollState::render_scroll_bars`: the vertical bar is emitted when
`rect.height < content_height`, the horizontal one (computed by transposing)
when `rect.width < content_width`; `none` means no bar is emitted on that
axis. -/
def renderScrollBarsM (rect : RectM) (offset : PosM) (contentSize : SizeM) :
    Option ScrollBarM × Option ScrollBarM :=
  ( if rect.height < contentSize.height then
      some (verticalScrollBarM rect offset contentSize)
    else none
  , if rect.width < contentSize.width then
      some ((verticalScrollBarM rect.transpose offset.transpose contentSize.transpose).transpose)
    else none )

/-- Modelled from the spec's words, for comparison with the code (claim C6):
"position proportional to `offset / (content − page)`, linearly interpolated
into page-local coordinates": the thumb's y coordinate would be
`rect.y + page_height * offset / (content_height − page_height)`, rounded. -/
def specThumbY (rect : RectM) (offset : PosM) (contentSize : SizeM) : ℤ :=
  round ((rect.y : ℚ) +
    (rect.height : ℚ) * (offset.y : ℚ) / ((contentSize.height : ℚ) - (rect.height : ℚ)))

/-!
## Helper lemmas
-/

/-- `gIdxFrom` yields one pair per grapheme cluster. -/
theorem gIdxFrom_length (off : ℕ) (t : List Cluster) :
    (gIdxFrom off t).length = t.length := by
  induction t generalizing off with
  | nil => rfl
  | cons c cs ih => simp [gIdxFrom, ih]

/-!
## Claims
-/

/-- C1 (code bug): `Any::substring` does not extend the returned slice to
the END of the last selected grapheme cluster — it slices
`&text[begin_idx..=last_idx]`, where `last_idx` is the last cluster's
STARTING byte.  On `"aé"` with `n = 1`, extracting `[0, 1)` yields `"a"` but
extracting `[1, 2)` slices `&text[1..=1]`, whose end (byte 2) falls inside
the two-byte cluster `"é"`: Rust panics (modelled by `none`).  On the
single-cluster text `"e\u{301}"`, extracting `[0, 0)` and `[0, 1)` yields
`""` and `"e"` (byte `101`) without a panic, silently splitting the cluster:
the concatenation has the bytes `[101]`, not the original
`[101, 204, 129]`. -/
theorem substring_splits_and_panics_on_clusters :
    (substringM textAEacute (rangeCo 0 1) = some [97] ∧
      substringM textAEacute (rangeCo 1 2) = none) ∧
    (substringM textECombining (rangeCo 0 0) = some [] ∧
      substringM textECombining (rangeCo 0 1) = some [101] ∧
      textBytes textECombining = [101, 204, 129] ∧
      ([] ++ [101] : List ℕ) ≠ textBytes textECombining) := by
  decide

/-- C2: each of `scroll_up`, `scroll_down`, `scroll_left`, `scroll_right`,
called with any count on any state, leaves the offset of the scrolled axis
within `[0, max (0, content − page)]` (the `ℕ` model makes `0 ≤` automatic
and `content - page` is truncated subtraction, i.e. `max 0 (C − P)`), and
leaves the other axis untouched. -/
theorem scroll_ops_clamp_invariant (s : ScrollState) (count : ℕ) :
    ((s.scrollUp count).offset.y ≤ s.contentSize.height - s.pageSize.height ∧
      (s.scrollUp count).offset.x = s.offset.x) ∧
    ((s.scrollDown count).offset.y ≤ s.contentSize.height - s.pageSize.height ∧
      (s.scrollDown count).offset.x = s.offset.x) ∧
    ((s.scrollLeft count).offset.x ≤ s.contentSize.width - s.pageSize.width ∧
      (s.scrollLeft count).offset.y = s.offset.y) ∧
    ((s.scrollRight count).offset.x ≤ s.contentSize.width - s.pageSize.width ∧
      (s.scrollRight count).offset.y = s.offset.y) := by
  refine ⟨⟨?_, rfl⟩, ⟨?_, rfl⟩, ⟨?_, rfl⟩, ⟨?_, rfl⟩⟩ <;>
    apply min_le_right

/-- C3: the reconciliation merge is last-writer-wins on the start
timestamp: a strictly newer incoming result replaces the current one, an
older-or-equal one is discarded; for `t1 < t2` both arrival orders give the
same final state, which is the `t2` result whenever the current state is
older than `t2`; and applying the same result twice changes nothing after
the first application. -/
theorem update_jq_output_lww (s r1 r2 : JqOutput) (h : r1.instant < r2.instant) :
    (∀ r : JqOutput, s.instant < r.instant → updateJqOutput s r = r) ∧
    (∀ r : JqOutput, r.instant ≤ s.instant → updateJqOutput s r = s) ∧
    updateJqOutput (updateJqOutput s r1) r2 = updateJqOutput (updateJqOutput s r2) r1 ∧
    (s.instant < r2.instant → updateJqOutput (updateJqOutput s r1) r2 = r2) ∧
    (∀ r : JqOutput, updateJqOutput (updateJqOutput s r) r = updateJqOutput s r) := by
  refine ⟨?_, ?_, ?_, ?_, ?_⟩ <;>
    · intros
      simp only [updateJqOutput]
      split_ifs <;> first | rfl | omega

/-- Witness for C3 at concrete outputs with timestamps `0`, `1`, `2`. -/
theorem update_jq_output_lww_witness :
    (JqOutput.new 1 "a").instant < (JqOutput.new 2 "b").instant ∧
    ((∀ r : JqOutput, (JqOutput.new 0 "").instant < r.instant →
        updateJqOutput (JqOutput.new 0 "") r = r) ∧
      (∀ r : JqOutput, r.instant ≤ (JqOutput.new 0 "").instant →
        updateJqOutput (JqOutput.new 0 "") r = JqOutput.new 0 "") ∧
      updateJqOutput (updateJqOutput (JqOutput.new 0 "") (JqOutput.new 1 "a")) (JqOutput.new 2 "b") =
        updateJqOutput (updateJqOutput (JqOutput.new 0 "") (JqOutput.new 2 "b")) (JqOutput.new 1 "a") ∧
      ((JqOutput.new 0 "").instant < (JqOutput.new 2 "b").instant →
        updateJqOutput (updateJqOutput (JqOutput.new 0 "") (JqOutput.new 1 "a")) (JqOutput.new 2 "b") =
          JqOutput.new 2 "b") ∧
      (∀ r : JqOutput, updateJqOutput (updateJqOutput (JqOutput.new 0 "") r) r =
        updateJqOutput (JqOutput.new 0 "") r)) :=
  ⟨by decide, update_jq_output_lww (JqOutput.new 0 "") (JqOutput.new 1 "a") (JqOutput.new 2 "b") (by decide)⟩

/-- C4: a column range that is empty (`end ≤ begin` after `Any::indices`)
or that starts at or past the text's grapheme-cluster count makes
`Any::substring` return the empty string — `some []`, never a panic
(`none`). -/
theorem substring_empty_or_past_end (t : TextM) (r : RRange)
    (h : (rIndices r (textBytes t).length).2 ≤ (rIndices r (textBytes t).length).1 ∨
      graphemeCount t ≤ (rIndices r (textBytes t).length).1) :
    substringM t r = some [] := by
  unfold substringM
  rcases h with h | h
  · have hlen : (rIndices r (textBytes t).length).2 - (rIndices r (textBytes t).length).1 = 0 :=
      Nat.sub_eq_zero_of_le h
    simp [hlen, firstAndLast]
  · have hdrop : (graphemeIndicesM t).drop (rIndices r (textBytes t).length).1 = [] := by
      apply List.drop_eq_nil_of_le
      rw [graphemeIndicesM, gIdxFrom_length]
      exact h
    simp [hdrop, firstAndLast]

/-- Witness for C4: the range `[2, 3)` lies past the end of `"ab"`. -/
theorem substring_empty_or_past_end_witness :
    ((rIndices (rangeCo 2 3) (textBytes textAB).length).2 ≤
        (rIndices (rangeCo 2 3) (textBytes textAB).length).1 ∨
      graphemeCount textAB ≤ (rIndices (rangeCo 2 3) (textBytes textAB).length).1) ∧
    substringM textAB (rangeCo 2 3) = some [] :=
  ⟨by decide, substring_empty_or_past_end textAB (rangeCo 2 3) (by decide)⟩

/-- C5: `JqOutput::with_scroll_view_offset` copies the other (previous)
output's scroll offset into the new output and changes nothing else: the
content, the line ranges, the content width and the timestamp all stay
those of the new output. -/
theorem with_scroll_view_offset_preserves (a b : JqOutput) :
    (a.withScrollViewOffset b).scrollView.offset = b.scrollView.offset ∧
    (a.withScrollViewOffset b).scrollView.content = a.scrollView.content ∧
    (a.withScrollViewOffset b).scrollView.lineRanges = a.scrollView.lineRanges ∧
    (a.withScrollViewOffset b).scrollView.contentWidth = a.scrollView.contentWidth ∧
    (a.withScrollViewOffset b).instant = a.instant :=
  ⟨rfl, rfl, rfl, rfl, rfl⟩

/-- C7: when the jq computation fails — the spawn fails (missing binary),
the exit status is non-zero, or stdout is not valid UTF-8 — `run_helper`
returns an error having sent nothing on the channel, so the reconciliation
loop leaves the currently displayed output unchanged; `run` merely logs the
error (no panic).  Bad flag tokenization already fails in
`JqProcessBuilder::build`, before any process exists. -/
theorem jq_failure_sends_nothing (o : Outcome)
    (h : o.spawnOk = false ∨ o.statusSuccess = false ∨ o.stdoutUtf8 = none) :
    runM o = [] ∧
    (∃ e, (runHelperM o).1 = .error e) ∧
    (∀ current : JqOutput, applyAll current (runM o) = current) ∧
    (∀ q : String, ∃ e, buildM none q = .error e) := by
  have hmain : (runHelperM o).2 = [] ∧ ∃ e, (runHelperM o).1 = Except.error e := by
    unfold runHelperM
    rcases h with h | h | h
    · simp [h]
    · rcases hsp : o.spawnOk with _ | _
      · simp
      · rcases hse : o.stderrUtf8 with _ | msg <;> simp [h]
    · rcases hsp : o.spawnOk with _ | _
      · simp
      · rcases hst : o.statusSuccess with _ | _
        · rcases hse : o.stderrUtf8 with _ | msg <;> simp
        · simp [h]
  refine ⟨hmain.1, hmain.2, ?_, fun q => ⟨_, rfl⟩⟩
  intro current
  rw [runM, hmain.1]
  rfl

/-- Witness for C7: a run whose child exits with a non-zero status. -/
theorem jq_failure_sends_nothing_witness :
    ((⟨true, false, some "out", some "err", 3⟩ : Outcome).spawnOk = false ∨
      (⟨true, false, some "out", some "err", 3⟩ : Outcome).statusSuccess = false ∨
      (⟨true, false, some "out", some "err", 3⟩ : Outcome).stdoutUtf8 = none) ∧
    (runM ⟨true, false, some "out", some "err", 3⟩ = [] ∧
      (∃ e, (runHelperM ⟨true, false, some "out", some "err", 3⟩).1 = .error e) ∧
      (∀ current : JqOutput,
        applyAll current (runM ⟨true, false, some "out", some "err", 3⟩) = current) ∧
      (∀ q : String, ∃ e, buildM none q = .error e)) :=
  ⟨by decide, jq_failure_sends_nothing ⟨true, false, some "out", some "err", 3⟩ (by decide)⟩

/-- C8 (counterexample): pressing Ctrl+Q does NOT end the session with an
error — `App::handle_event` returns `Ok(Some(String::new()))`, which by the
function's own contract means "exit the program successfully with the given
(empty) output"; `Except.ok` is not `Except.error`. -/
theorem ctrl_q_exits_ok_counterexample :
    handleEventM (EventM.key ⟨KeyCodeM.char 'q', ModifiersM.control⟩) "xyz" =
      Except.ok (some "") := by
  rfl

/-- C8 (amended): Ctrl+Q ends the session successfully with an empty output
string (a force-quit that discards the output), while Enter ends the
session successfully with the reconciled output value. -/
theorem quit_and_commit_keys (v : String) :
    handleEventM (EventM.key ⟨KeyCodeM.char 'q', ModifiersM.control⟩) v =
      Except.ok (some "") ∧
    handleEventM (EventM.key ⟨KeyCodeM.enter, ModifiersM.noControl⟩) v =
      Except.ok (some v) := by
  exact ⟨rfl, rfl⟩

/-- C10: building the jq process with an empty query substitutes the
identity query `"."` (and never `""`) as the final positional argument
after the flag tokens. -/
theorem empty_query_uses_identity (args : List String) :
    buildM (some args) "" = .ok ⟨JQ_EXECUTABLE_NAME, args ++ [DEFAULT_QUERY]⟩ ∧
    DEFAULT_QUERY = "." ∧ DEFAULT_QUERY ≠ "" := by
  refine ⟨?_, rfl, by decide⟩
  rfl

/-- Evaluation of `Any::interpolate` at the inputs of the C6
counterexample (all exact in `f32`). -/
theorem interpolate_eval_16_24_64 : interpolateQ 24 0 64 0 16 = 6 := by
  unfold interpolateQ clampQ
  norm_num [round_eq]

/-- Evaluation of `Any::interpolate` at the second C6 counterexample input
(`10 * 30 / 40 = 7.5`, exact in `f32`; both `f32::round` and Mathlib's
`round` send `7.5` to `8`). -/
theorem interpolate_eval_10_30_40 : interpolateQ 30 0 40 0 10 = 8 := by
  unfold interpolateQ clampQ
  norm_num [round_eq]

/-- Evaluation of `Any::interpolate` for the thumb height at the second C6
counterexample input (`10 * 10 / 40 = 2.5`, exact in `f32`; both
`f32::round` — half away from zero — and Mathlib's `round` send `2.5` to
`3`). -/
theorem interpolate_eval_10_10_40 : interpolateQ 10 0 40 0 10 = 3 := by
  unfold interpolateQ clampQ
  norm_num [round_eq]

/-- C6 (counterexample): with page height 16, content height 64 and offset
24, the code places the thumb top at row `round(16 · 24/64) = 6`, not at
`round(16 · 24/(64 − 16)) = 8` as "proportional to offset / (content −
page)" demands — the code divides by the content height, not by
`content − page`.  And with page height 10, content height 40, offset 30,
the thumb occupies rows `[8, 8 + 3)`, which extends one row past the page
bottom `10`: the whole thumb does NOT always lie inside the page
rectangle. -/
theorem scrollbar_geometry_counterexample :
    ((verticalScrollBarM ⟨0, 0, 16, 16⟩ ⟨0, 24⟩ ⟨16, 64⟩).thumb.y = 6 ∧
      specThumbY ⟨0, 0, 16, 16⟩ ⟨0, 24⟩ ⟨16, 64⟩ = 8 ∧
      ((verticalScrollBarM ⟨0, 0, 16, 16⟩ ⟨0, 24⟩ ⟨16, 64⟩).thumb.y : ℤ) ≠
        specThumbY ⟨0, 0, 16, 16⟩ ⟨0, 24⟩ ⟨16, 64⟩) ∧
    ((verticalScrollBarM ⟨0, 0, 10, 10⟩ ⟨0, 30⟩ ⟨10, 40⟩).thumb.y = 8 ∧
      (verticalScrollBarM ⟨0, 0, 10, 10⟩ ⟨0, 30⟩ ⟨10, 40⟩).thumb.height = 3 ∧
      rectBottom ⟨0, 0, 10, 10⟩ <
        (verticalScrollBarM ⟨0, 0, 10, 10⟩ ⟨0, 30⟩ ⟨10, 40⟩).thumb.y +
          (verticalScrollBarM ⟨0, 0, 10, 10⟩ ⟨0, 30⟩ ⟨10, 40⟩).thumb.height) := by
  have hbot : rectBottom ⟨0, 0, 16, 16⟩ = 16 := by decide
  have hbot2 : rectBottom ⟨0, 0, 10, 10⟩ = 10 := by decide
  have hy : (verticalScrollBarM ⟨0, 0, 16, 16⟩ ⟨0, 24⟩ ⟨16, 64⟩).thumb.y = 6 := by
    show castU16 (interpolateQ 24 0 ((64 : ℕ) : ℚ) ((0 : ℕ) : ℚ) ((rectBottom ⟨0, 0, 16, 16⟩ : ℕ) : ℚ)) = 6
    rw [hbot]
    rw [show (((64 : ℕ) : ℚ)) = (64 : ℚ) by norm_num,
      show (((0 : ℕ) : ℚ)) = (0 : ℚ) by norm_num,
      show (((16 : ℕ) : ℚ)) = (16 : ℚ) by norm_num]
    rw [interpolate_eval_16_24_64]
    decide
  have hspec : specThumbY ⟨0, 0, 16, 16⟩ ⟨0, 24⟩ ⟨16, 64⟩ = 8 := by
    unfold specThumbY
    norm_num [round_eq]
  have hy2 : (verticalScrollBarM ⟨0, 0, 10, 10⟩ ⟨0, 30⟩ ⟨10, 40⟩).thumb.y = 8 := by
    show castU16 (interpolateQ 30 0 ((40 : ℕ) : ℚ) ((0 : ℕ) : ℚ) ((rectBottom ⟨0, 0, 10, 10⟩ : ℕ) : ℚ)) = 8
    rw [hbot2]
    rw [show (((40 : ℕ) : ℚ)) = (40 : ℚ) by norm_num,
      show (((0 : ℕ) : ℚ)) = (0 : ℚ) by norm_num,
      show (((10 : ℕ) : ℚ)) = (10 : ℚ) by norm_num]
    rw [interpolate_eval_10_30_40]
    decide
  have hh2 : (verticalScrollBarM ⟨0, 0, 10, 10⟩ ⟨0, 30⟩ ⟨10, 40⟩).thumb.height = 3 := by
    show castU16 (max (interpolateQ 10 0 ((40 : ℕ) : ℚ) ((0 : ℕ) : ℚ) ((10 : ℕ) : ℚ)) 1) = 3
    rw [show (((40 : ℕ) : ℚ)) = (40 : ℚ) by norm_num,
      show (((0 : ℕ) : ℚ)) = (0 : ℚ) by norm_num,
      show (((10 : ℕ) : ℚ)) = (10 : ℚ) by norm_num]
    rw [interpolate_eval_10_10_40]
    decide
  refine ⟨⟨hy, hspec, ?_⟩, hy2, hh2, ?_⟩
  · rw [hy, hspec]; decide
  · rw [hy2, hh2, hbot2]; decide

/-- C9 (counterexample): with a page height of zero and content height one,
`render_scroll_bars` DOES emit a vertical scrollbar (the guard
`rect.height < content_height` holds), so a zero page size is not treated
as "no scrollbar". -/
theorem scrollbar_zero_page_counterexample :
    (RectM.mk 0 0 5 0).height = 0 ∧
    (renderScrollBarsM ⟨0, 0, 5, 0⟩ ⟨0, 0⟩ ⟨5, 1⟩).1.isSome = true := by
  exact ⟨rfl, rfl⟩

/-- C9 (amended): a scrollbar is emitted on an axis exactly when the
content extent strictly exceeds the page extent there; whenever the
computation runs, the divisor of its interpolations — the content extent,
since `old_max − old_min = content − 0` — is strictly positive, so no
division by zero occurs (in particular a zero page with zero content emits
nothing); but a zero page with positive content does emit a bar. -/
theorem scrollbars_emitted_iff (rect : RectM) (offset : PosM) (contentSize : SizeM) :
    ((renderScrollBarsM rect offset contentSize).1.isSome ↔
      rect.height < contentSize.height) ∧
    ((renderScrollBarsM rect offset contentSize).2.isSome ↔
      rect.width < contentSize.width) ∧
    ((renderScrollBarsM rect offset contentSize).1.isSome →
      (0 : ℚ) < ((contentSize.height : ℚ) - 0)) ∧
    ((renderScrollBarsM rect offset contentSize).2.isSome →
      (0 : ℚ) < ((contentSize.width : ℚ) - 0)) := by
  refine ⟨?_, ?_, ?_, ?_⟩
  · by_cases h : rect.height < contentSize.height <;> simp [renderScrollBarsM, h]
  · by_cases h : rect.width < contentSize.width <;> simp [renderScrollBarsM, h]
  · intro hs
    by_cases h : rect.height < contentSize.height
    · have hpos : 0 < contentSize.height := Nat.lt_of_le_of_lt (Nat.zero_le _) h
      rw [sub_zero]
      exact_mod_cast hpos
    · simp [renderScrollBarsM, h] at hs
  · intro hs
    by_cases h : rect.width < contentSize.width
    · have hpos : 0 < contentSize.width := Nat.lt_of_le_of_lt (Nat.zero_le _) h
      rw [sub_zero]
      exact_mod_cast hpos
    · simp [renderScrollBarsM, h] at hs

/-- Witness for C9 (amended) at a page of 2×2 and content of 5×5. -/
theorem scrollbars_emitted_iff_witness :
    ((renderScrollBarsM ⟨0, 0, 2, 2⟩ ⟨0, 0⟩ ⟨5, 5⟩).1.isSome ↔
      (RectM.mk 0 0 2 2).height < (SizeM.mk 5 5).height) ∧
    ((renderScrollBarsM ⟨0, 0, 2, 2⟩ ⟨0, 0⟩ ⟨5, 5⟩).2.isSome ↔
      (RectM.mk 0 0 2 2).width < (SizeM.mk 5 5).width) ∧
    ((renderScrollBarsM ⟨0, 0, 2, 2⟩ ⟨0, 0⟩ ⟨5, 5⟩).1.isSome →
      (0 : ℚ) < (((SizeM.mk 5 5).height : ℚ) - 0)) ∧
    ((renderScrollBarsM ⟨0, 0, 2, 2⟩ ⟨0, 0⟩ ⟨5, 5⟩).2.isSome →
      (0 : ℚ) < (((SizeM.mk 5 5).width : ℚ) - 0)) :=
  scrollbars_emitted_iff ⟨0, 0, 2, 2⟩ ⟨0, 0⟩ ⟨5, 5⟩

/-- C6 (amended): on an axis where the content extent exceeds the page
extent (with the page rectangle within `u16` range and the offset within the
content), the thumb never disappears (height at least one cell); its height
is within half a cell of `max 1 (page · page/content)` — proportional to
`page/content` of the track, floored at one cell; its TOP is within half a
cell of `rect.y + page · offset/content` — proportional to
`offset / content`, NOT `offset / (content − page)` — and always lies within
the page's rows (the thumb's extent may still leave the page bottom, see the
counterexample). -/
theorem scrollbar_thumb_geometry (rect : RectM) (offset : PosM) (contentSize : SizeM)
    (hpc : rect.height < contentSize.height)
    (hb : rect.y + rect.height ≤ U16_MAX)
    (hoff : offset.y ≤ contentSize.height) :
    1 ≤ (verticalScrollBarM rect offset contentSize).thumb.height ∧
    |((verticalScrollBarM rect offset contentSize).thumb.height : ℚ) -
        max 1 ((rect.height : ℚ) * rect.height / contentSize.height)| ≤ 1 / 2 ∧
    rect.y ≤ (verticalScrollBarM rect offset contentSize).thumb.y ∧
    (verticalScrollBarM rect offset contentSize).thumb.y ≤ rect.y + rect.height ∧
    |((verticalScrollBarM rect offset contentSize).thumb.y : ℚ) -
        ((rect.y : ℚ) + (rect.height : ℚ) * offset.y / contentSize.height)| ≤ 1 / 2 := by
  set h : ℕ := rect.height with hh
  set C : ℕ := contentSize.height with hC
  set y : ℕ := rect.y with hy
  set off : ℕ := offset.y with hoffdef
  have hCpos : (0 : ℚ) < (C : ℚ) := by
    have : 0 < C := Nat.lt_of_le_of_lt (Nat.zero_le _) hpc
    exact_mod_cast this
  have hhC : (h : ℚ) ≤ (C : ℚ) := by exact_mod_cast Nat.le_of_lt hpc
  have hoffC : (off : ℚ) ≤ (C : ℚ) := by exact_mod_cast hoff
  have hbot : rectBottom rect = y + h := by
    unfold rectBottom satAdd16
    exact min_eq_left hb
  -- the thumb height interpolation
  have hA : interpolateQ h 0 (C : ℚ) 0 (h : ℚ) = round ((h : ℚ) * h / C) := by
    simp only [interpolateQ, clampQ]
    have h1 : max ((h : ℕ) : ℚ) 0 = (h : ℚ) := max_eq_left (by positivity)
    have h2 : min ((h : ℚ)) (C : ℚ) = (h : ℚ) := min_eq_left hhC
    rw [h1, h2]
    have h3 : (0 : ℚ) + ((h : ℚ) - 0) * ((h : ℚ) - 0) / ((C : ℚ) - 0) = (h : ℚ) * h / C := by
      ring
    rw [h3]
    have h4 : max ((h : ℚ) * h / C) 0 = (h : ℚ) * h / C := max_eq_left (by positivity)
    have h5 : min ((h : ℚ) * h / C) (h : ℚ) = (h : ℚ) * h / C := by
      apply min_eq_left
      rw [div_le_iff₀ hCpos]
      exact mul_le_mul_of_nonneg_left hhC (by positivity)
    rw [h4, h5]
  -- the thumb position interpolation
  have hB : interpolateQ off 0 (C : ℚ) (y : ℚ) ((rectBottom rect : ℕ) : ℚ) =
      round ((y : ℚ) + (h : ℚ) * off / C) := by
    rw [hbot]
    simp only [interpolateQ, clampQ]
    have h1 : max ((off : ℕ) : ℚ) 0 = (off : ℚ) := max_eq_left (by positivity)
    have h2 : min ((off : ℚ)) (C : ℚ) = (off : ℚ) := min_eq_left hoffC
    rw [h1, h2]
    have h3 : (y : ℚ) + (((y + h : ℕ) : ℚ) - (y : ℚ)) * ((off : ℚ) - 0) / ((C : ℚ) - 0) =
        (y : ℚ) + (h : ℚ) * off / C := by
      push_cast
      ring
    rw [h3]
    have hle : (h : ℚ) * off / C ≤ (h : ℚ) := by
      rw [div_le_iff₀ hCpos]
      exact mul_le_mul_of_nonneg_left hoffC (by positivity)
    have h4 : max ((y : ℚ) + (h : ℚ) * off / C) (y : ℚ) = (y : ℚ) + (h : ℚ) * off / C :=
      max_eq_left (le_add_of_nonneg_right (by positivity))
    have h5 : min ((y : ℚ) + (h : ℚ) * off / C) (((y + h : ℕ) : ℚ)) =
        (y : ℚ) + (h : ℚ) * off / C := by
      apply min_eq_left
      push_cast
      linarith
    rw [h4, h5]
  set t : ℚ := (h : ℚ) * h / C with ht
  set q : ℚ := (y : ℚ) + (h : ℚ) * off / C with hq
  have htnonneg : 0 ≤ t := by positivity
  have hth : t ≤ (h : ℚ) := by
    rw [ht, div_le_iff₀ hCpos]
    exact mul_le_mul_of_nonneg_left hhC (by positivity)
  have hqlo : (y : ℚ) ≤ q := by
    rw [hq]
    have : 0 ≤ (h : ℚ) * off / C := by positivity
    linarith
  have hqhi : q ≤ (y : ℚ) + h := by
    rw [hq]
    have : (h : ℚ) * off / C ≤ (h : ℚ) := by
      rw [div_le_iff₀ hCpos]
      exact mul_le_mul_of_nonneg_left hoffC (by positivity)
    linarith
  -- integer bounds on the rounded values
  have hrt_hi : round t ≤ (h : ℤ) := by
    rw [round_eq, Int.floor_le_iff]
    have hlt : t + 1 / 2 < (h : ℚ) + 1 := add_lt_add_of_le_of_lt hth (by norm_num)
    exact_mod_cast hlt
  have hz'_lo : (y : ℤ) ≤ round q := by
    rw [round_eq, Int.le_floor]
    have hle : (y : ℚ) ≤ q + 1 / 2 := le_trans hqlo (le_add_of_nonneg_right (by norm_num))
    exact_mod_cast hle
  have hz'_hi : round q ≤ (y : ℤ) + h := by
    rw [round_eq, Int.floor_le_iff]
    have hlt : q + 1 / 2 < ((y : ℚ) + (h : ℚ)) + 1 :=
      add_lt_add_of_le_of_lt hqhi (by norm_num)
    exact_mod_cast hlt
  -- evaluate the thumb height field
  have hheight : (verticalScrollBarM rect offset contentSize).thumb.height =
      (max (round t) 1).toNat := by
    show castU16 (max (interpolateQ h 0 (C : ℚ) 0 (h : ℚ)) 1) = (max (round t) 1).toNat
    rw [hA, castU16]
    have hnlt : ¬(max (round t) 1 < 0 ∨ (U16_MAX : ℤ) < max (round t) 1) := by
      push_neg
      constructor
      · omega
      · have hhle : (h : ℤ) ≤ (U16_MAX : ℤ) := by
          have : h ≤ U16_MAX := le_trans (Nat.le_add_left _ _) hb
          exact_mod_cast this
        have : (1 : ℤ) ≤ (U16_MAX : ℤ) := by norm_num [U16_MAX]
        omega
    rw [if_neg hnlt]
  have hyfield : (verticalScrollBarM rect offset contentSize).thumb.y = (round q).toNat := by
    show castU16 (interpolateQ off 0 (C : ℚ) (y : ℚ) ((rectBottom rect : ℕ) : ℚ)) = (round q).toNat
    rw [hB, castU16]
    have hnlt : ¬(round q < 0 ∨ (U16_MAX : ℤ) < round q) := by
      push_neg
      constructor
      · omega
      · have : (y : ℤ) + h ≤ (U16_MAX : ℤ) := by exact_mod_cast hb
        omega
    rw [if_neg hnlt]
  refine ⟨?_, ?_, ?_, ?_, ?_⟩
  · rw [hheight]
    omega
  · rw [hheight]
    have hcast : (((max (round t) 1).toNat : ℕ) : ℚ) = ((max (round t) 1 : ℤ) : ℚ) := by
      have : ((max (round t) 1).toNat : ℤ) = max (round t) 1 := Int.toNat_of_nonneg (by omega)
      exact_mod_cast this
    rw [hcast]
    have hmax : ((max (round t) 1 : ℤ) : ℚ) = max ((round t : ℤ) : ℚ) 1 := by
      push_cast
      rfl
    rw [hmax, max_comm ((1 : ℚ)) t]
    calc |max ((round t : ℤ) : ℚ) 1 - max t 1| ≤ |((round t : ℤ) : ℚ) - t| :=
        abs_max_sub_max_le_abs _ _ _
      _ ≤ 1 / 2 := by rw [abs_sub_comm]; exact abs_sub_round t
  · rw [hyfield]
    omega
  · rw [hyfield]
    omega
  · rw [hyfield]
    have hcast : (((round q).toNat : ℕ) : ℚ) = ((round q : ℤ) : ℚ) := by
      have : ((round q).toNat : ℤ) = round q := Int.toNat_of_nonneg (by omega)
      exact_mod_cast this
    rw [hcast]
    rw [abs_sub_comm]
    exact abs_sub_round q

/-- Witness for C6 (amended) at page height 16, content height 64,
offset 24. -/
theorem scrollbar_thumb_geometry_witness :
    (RectM.mk 0 0 16 16).height < (SizeM.mk 16 64).height ∧
    (RectM.mk 0 0 16 16).y + (RectM.mk 0 0 16 16).height ≤ U16_MAX ∧
    (PosM.mk 0 24).y ≤ (SizeM.mk 16 64).height ∧
    1 ≤ (verticalScrollBarM ⟨0, 0, 16, 16⟩ ⟨0, 24⟩ ⟨16, 64⟩).thumb.height :=
  ⟨by decide, by decide, by decide,
    (scrollbar_thumb_geometry ⟨0, 0, 16, 16⟩ ⟨0, 24⟩ ⟨16, 64⟩
      (by decide) (by decide) (by decide)).1⟩
